import Mathlib

/-!
# Verification of the DXVK instance bootstrap (`src/dxvk/dxvk_instance.cpp`)

A shallow embedding of `DxvkInstance`: extension negotiation during
`createInstance`, the constructor's initialization sequence, adapter
enumeration / filtering / ranking in `queryAdapters`, and the adapter
lookup queries `findAdapterByLuid` / `findAdapterByDeviceId`.

Conventions: machine integers are modelled as `Nat` (no arithmetic wraps in
the modelled code paths); fallible code returns `Except DxvkError`;
`std::stable_sort` is modelled as a stable insertion sort (for the
strict-weak-order comparator used here, every stable sort produces the same
list); side effects that the claims mention (log warnings, call ordering in
the constructor) are reified as explicit event lists.
-/

namespace Dxvk

/-- The Vulkan physical-device type enumeration (`VkPhysicalDeviceType`). -/
inductive VkPhysicalDeviceType where
  | other
  | integratedGpu
  | discreteGpu
  | virtualGpu
  | cpu
deriving DecidableEq, Repr

/-- Vulkan call status. `success` is `VK_SUCCESS`; `incomplete` is
`VK_INCOMPLETE` (returned by the second enumeration call when the device
count grew between the two calls, i.e. on a count/buffer mismatch);
`errorUnknown` stands for any genuine error code. -/
inductive VkResult where
  | success
  | incomplete
  | errorUnknown
deriving DecidableEq, Repr

/-- The fields of `VkPhysicalDeviceProperties` that the modelled code
reads: the device type and the vendor/device identifiers. -/
structure VkPhysicalDeviceProperties where
  deviceType : VkPhysicalDeviceType
  vendorID : Nat
  deviceID : Nat
deriving DecidableEq, Repr

/-- One enumerated physical device: its core property snapshot plus the
Vulkan 1.1 extended properties that `findAdapterByLuid` consults
(`deviceLUIDValid`, `deviceLUID`).  The LUID is a `VK_LUID_SIZE`-byte
value, modelled as its list of bytes. -/
structure VkPhysicalDevice where
  properties : VkPhysicalDeviceProperties
  deviceLUIDValid : Bool
  deviceLUID : List Nat
deriving DecidableEq, Repr

/-- `DxvkAdapter`: wraps one physical device handle; its property queries
(`deviceProperties()`, `devicePropertiesExt().vk11`) return the device's
cached snapshot. -/
structure DxvkAdapter where
  device : VkPhysicalDevice
deriving DecidableEq, Repr

/-- `DxvkAdapter::deviceProperties()`. -/
def DxvkAdapter.deviceProperties (a : DxvkAdapter) : VkPhysicalDeviceProperties :=
  a.device.properties

/-- `DxvkError`: the exception type thrown on fatal bootstrap failures. -/
structure DxvkError where
  message : String
deriving DecidableEq, Repr

/-- The log events the modelled code can emit (`Logger::warn` calls). -/
inductive LogEvent where
  | debugUtilsPerfWarning
  | noAdaptersWarning
deriving DecidableEq, Repr

/-! ## Device filtering (`queryAdapters`, lines 159–175) -/

/-- `DxvkDeviceFilterFlags`: the policy bit-set computed over the whole
device population.  The only flag in this core is `SkipCpuDevices`. -/
structure DxvkDeviceFilterFlags where
  skipCpuDevices : Bool
deriving DecidableEq, Repr

/-- The per-device loop of `queryAdapters` (lines 162–167): the flag
`SkipCpuDevices` is set as soon as some device's type is not
`VK_PHYSICAL_DEVICE_TYPE_CPU`. -/
def computeFilterFlags (props : List VkPhysicalDeviceProperties) : DxvkDeviceFilterFlags :=
  props.foldl
    (fun flags p =>
      if p.deviceType != VkPhysicalDeviceType.cpu then { skipCpuDevices := true } else flags)
    { skipCpuDevices := false }

/-- Modelled from the spec: `DxvkDeviceFilter::testAdapter` (its source,
`dxvk_device_filter.cpp`, is not part of the repository excerpt).  The spec:
the filter excludes a device exactly when the `SkipCpuDevices` flag is set
and the device is of CPU type; every other device passes. -/
def testAdapter (flags : DxvkDeviceFilterFlags) (p : VkPhysicalDeviceProperties) : Bool :=
  !(flags.skipCpuDevices && p.deviceType == VkPhysicalDeviceType.cpu)

/-- The adapter collection before ranking (lines 169–175): each device of
the population whose properties pass the filter becomes one `DxvkAdapter`,
in enumeration order. -/
def survivingAdapters (devices : List VkPhysicalDevice) : List DxvkAdapter :=
  let flags := computeFilterFlags (devices.map (·.properties))
  (devices.filter (fun d => testAdapter flags d.properties)).map DxvkAdapter.mk

/-! ## The ranking comparator (lines 177–194) -/

/-- The fixed priority table `deviceTypes` of the sort comparator. -/
def deviceTypesTable : List VkPhysicalDeviceType :=
  [VkPhysicalDeviceType.discreteGpu, VkPhysicalDeviceType.integratedGpu,
   VkPhysicalDeviceType.virtualGpu]

/-- The comparator's scan loop (lines 188–191): starting from
`aRank = bRank = 3`, while `i < min aRank bRank`, a rank is lowered to `i`
when the corresponding type equals `deviceTypes[i]`.  The loop body runs at
most three times, so fuel 4 always lets it exit through its own guard. -/
def rankLoop : Nat → Nat → Nat → Nat → VkPhysicalDeviceType → VkPhysicalDeviceType → Nat × Nat
  | 0, _, aRank, bRank, _, _ => (aRank, bRank)
  | fuel + 1, i, aRank, bRank, aType, bType =>
    if i < min aRank bRank then
      let t := deviceTypesTable.getD i VkPhysicalDeviceType.other
      rankLoop fuel (i + 1)
        (if aType == t then i else aRank)
        (if bType == t then i else bRank) aType bType
    else (aRank, bRank)

/-- The comparator on device types: compute both ranks, return `aRank < bRank`. -/
def typeLess (aType bType : VkPhysicalDeviceType) : Bool :=
  let r := rankLoop 4 0 deviceTypesTable.length deviceTypesTable.length aType bType
  decide (r.1 < r.2)

/-- The lambda passed to `std::stable_sort` (lines 178–194). -/
def adapterLess (a b : DxvkAdapter) : Bool :=
  typeLess a.deviceProperties.deviceType b.deviceProperties.deviceType

/-- The priority class of a device type as the spec describes it: position
in the priority table, or the table's length (3) for any other type. -/
def priorityRank : VkPhysicalDeviceType → Nat
  | VkPhysicalDeviceType.discreteGpu => 0
  | VkPhysicalDeviceType.integratedGpu => 1
  | VkPhysicalDeviceType.virtualGpu => 2
  | _ => 3

/-! ## Stable sort (model of `std::stable_sort`) -/

/-- Stable insertion with respect to a strict comparator `lt`: the new
element is placed after every existing element it is not strictly less
than.  Folding this over the input models `std::stable_sort`: for a
strict-weak-order comparator the stable sorted result is unique, and
insertion sort realizes it. -/
def stableInsert (lt : α → α → Bool) (x : α) : List α → List α
  | [] => [x]
  | y :: ys => if lt x y then x :: y :: ys else y :: stableInsert lt x ys

/-- Model of `std::stable_sort`: left-to-right stable insertion. -/
def stableSort (lt : α → α → Bool) (l : List α) : List α :=
  l.foldl (fun acc x => stableInsert lt x acc) []

/-! ## `queryAdapters` (lines 150–202) -/

/-- The driver connection's enumeration behavior, as seen through the two
`vkEnumeratePhysicalDevices` calls: `countCall` is the sizing call (status
and reported count), `fillCall n` is the call with a buffer of capacity
`n` (status and the devices written).  A well-behaved driver answers
`fillCall` with at most `n` devices; the model does not assume it. -/
structure VulkanDriver where
  countCall : VkResult × Nat
  fillCall : Nat → VkResult × List VkPhysicalDevice

/-- Everything `queryAdapters` does after enumeration succeeded (lines
159–201): gather properties, compute the filter flags over the whole
population, filter, build the adapters, stable-sort them by the
comparator, and warn when the result is empty.  Returns the ranked
adapter list and the emitted log events. -/
def queryAdaptersFrom (devices : List VkPhysicalDevice) : List DxvkAdapter × List LogEvent :=
  let result := stableSort adapterLess (survivingAdapters devices)
  (result, if result.length = 0 then [LogEvent.noAdaptersWarning] else [])

/-- `DxvkInstance::queryAdapters` (lines 150–202): the sizing call, then
the fill call with a buffer of the reported count; either call returning a
status other than `VK_SUCCESS` throws, with no retry. -/
def queryAdapters (drv : VulkanDriver) :
    Except DxvkError (List DxvkAdapter × List LogEvent) :=
  let c := drv.countCall
  if c.1 != VkResult.success then
    Except.error { message := "DxvkInstance::enumAdapters: Failed to enumerate adapters" }
  else
    let f := drv.fillCall c.2
    if f.1 != VkResult.success then
      Except.error { message := "DxvkInstance::enumAdapters: Failed to enumerate adapters" }
    else
      Except.ok (queryAdaptersFrom f.2)

/-! ## Adapter lookup (lines 59–88) -/

/-- `DxvkInstance::findAdapterByLuid` (lines 66–75): first adapter, in
ranked order, whose Vulkan 1.1 properties carry a valid LUID equal
byte-for-byte to the query (`memcmp` over the `VK_LUID_SIZE`-byte values),
else `nullptr`. -/
def findAdapterByLuid (adapters : List DxvkAdapter) (luid : List Nat) : Option DxvkAdapter :=
  adapters.find? (fun a => a.device.deviceLUIDValid && a.device.deviceLUID == luid)

/-- `DxvkInstance::findAdapterByDeviceId` (lines 78–88): first adapter, in
ranked order, whose properties match both the vendor and the device
identifier, else `nullptr`. -/
def findAdapterByDeviceId (adapters : List DxvkAdapter) (vendorId deviceId : Nat) :
    Option DxvkAdapter :=
  adapters.find? (fun a =>
    a.deviceProperties.vendorID == vendorId && a.deviceProperties.deviceID == deviceId)

/-! ## Instance extension negotiation (`createInstance`, lines 91–147) -/

/-- `DxvkOptions`: the resolved configuration consumed here (only the
debug-utils flag is read by the modelled code). -/
structure DxvkOptions where
  enableDebugUtils : Bool
deriving DecidableEq, Repr

/-- Modelled from the spec: the `DxvkExtMode` of an extension slot
(declared in `dxvk_extensions.h`, which is not part of the repository
excerpt).  The spec: instance negotiation is all-or-nothing over its
mandatory (surface) subset, while the debug/instrumentation extension is
non-mandatory. -/
inductive DxvkExtMode where
  | required
  | optional
deriving DecidableEq, Repr

/-- An instance-extension request slot: a name and its mode. -/
structure DxvkExt where
  name : String
  mode : DxvkExtMode
deriving DecidableEq, Repr

/-- Modelled from the spec: the slots of `DxvkInstanceExtensions`
(declared in `dxvk_instance.h`, not in the excerpt).  The two surface
extensions are mandatory; debug utils is optional. -/
def khrGetSurfaceCapabilities2Ext : DxvkExt :=
  { name := "VK_KHR_get_surface_capabilities2", mode := DxvkExtMode.required }

/-- The mandatory surface extension slot. -/
def khrSurfaceExt : DxvkExt :=
  { name := "VK_KHR_surface", mode := DxvkExtMode.required }

/-- The optional debug/instrumentation extension slot. -/
def extDebugUtilsExt : DxvkExt :=
  { name := "VK_EXT_debug_utils", mode := DxvkExtMode.optional }

/-- The committed instance-extension record (`m_extensions`): which of the
three slots ended up enabled. -/
structure DxvkInstanceExtensions where
  khrGetSurfaceCapabilities2 : Bool
  khrSurface : Bool
  extDebugUtils : Bool
deriving DecidableEq, Repr

/-- Modelled from the spec: `DxvkNameSet::enableExtensions` (its source,
`dxvk_extensions.cpp`, is not in the excerpt).  Given the driver's
available names and the requested slots, each slot is enabled exactly when
its name is available; the call fails as a whole — committing nothing —
exactly when some `required` slot's name is unavailable.  Returns each
slot's name paired with its enabled flag. -/
def enableExtensions (available : List String) (request : List DxvkExt) :
    Option (List (String × Bool)) :=
  if request.all (fun e => e.mode != DxvkExtMode.required || available.contains e.name) then
    some (request.map (fun e => (e.name, available.contains e.name)))
  else none

/-- Whether a negotiated slot list has a given name enabled. -/
def slotEnabled (slots : List (String × Bool)) (n : String) : Bool :=
  slots.any (fun s => s.1 == n && s.2)

/-- The debug-utils opt-in (lines 101–102): the environment variable
`DXVK_PERF_EVENTS` compares equal to the string `"1"`, or the resolved
configuration flag `enableDebugUtils` is set.  `env::getEnvVar` (not in
the excerpt) is modelled as a total map from variable name to value, the
empty string standing for an unset variable. -/
def debugUtilsOptIn (envVar : String → String) (options : DxvkOptions) : Bool :=
  envVar "DXVK_PERF_EVENTS" == "1" || options.enableDebugUtils

/-- The requested slot list `insExtensionList` (lines 94–105): the two
mandatory surface slots, plus the debug-utils slot when the opt-in is
active. -/
def insExtensionList (optIn : Bool) : List DxvkExt :=
  [khrGetSurfaceCapabilities2Ext, khrSurfaceExt] ++
    (if optIn then [extDebugUtilsExt] else [])

/-- What a successful `createInstance` produces, as far as the claims
observe it: the committed extension record and the final enabled-name
list handed to `vkCreateInstance`. -/
structure InstanceCreationResult where
  extensions : DxvkInstanceExtensions
  enabledNames : List String
deriving DecidableEq, Repr

/-- Modelled from the spec: `DxvkNameSet::merge` / `toNameList` (not in
the excerpt) — the provider name sets are merged into the enabled set;
a name set holds each name once. -/
def mergeNames (acc : List String) (p : List String) : List String :=
  acc ++ p.filter (fun n => !acc.contains n)

/-- `DxvkInstance::createInstance` (lines 91–147).  Inputs beyond the
instance state: the process environment, the resolved options, the
driver's available instance extensions, each provider's additional
instance extensions (in registration order), and the `vkCreateInstance`
status.  Returns the outcome together with the warnings logged on the
way (the debug-utils performance warning is logged at request time,
lines 101–105, before negotiation runs). -/
def createInstance (envVar : String → String) (options : DxvkOptions)
    (available : List String) (providerExts : List (List String))
    (createStatus : VkResult) :
    Except DxvkError InstanceCreationResult × List LogEvent :=
  let optIn := debugUtilsOptIn envVar options
  let events := if optIn then [LogEvent.debugUtilsPerfWarning] else []
  match enableExtensions available (insExtensionList optIn) with
  | none => (Except.error { message := "DxvkInstance: Failed to create instance" }, events)
  | some slots =>
    let extensions : DxvkInstanceExtensions :=
      { khrGetSurfaceCapabilities2 := slotEnabled slots khrGetSurfaceCapabilities2Ext.name
        khrSurface := slotEnabled slots khrSurfaceExt.name
        extDebugUtils := slotEnabled slots extDebugUtilsExt.name }
    let enabledNames := (slots.filter (·.2)).map (·.1)
    let allNames := providerExts.foldl mergeNames enabledNames
    if createStatus != VkResult.success then
      (Except.error
        { message := "DxvkInstance::createInstance: Failed to create Vulkan 1.1 instance" },
        events)
    else
      (Except.ok { extensions := extensions, enabledNames := allNames }, events)

/-! ## The constructor (`DxvkInstance::DxvkInstance`, lines 12–51) -/

/-- The externally observable steps of the constructor, in the order the
code performs them. -/
inductive TraceEvent where
  | providerInitInstanceExts (i : Nat)
  | loadVulkanLibrary
  | createVulkanInstance
  | enumeratePhysicalDevices
  | providerInitDeviceExts (i : Nat)
  | adapterEnableExts (adapterIdx providerIdx : Nat)
deriving DecidableEq, Repr

/-- The state a fully constructed instance publishes. -/
structure DxvkInstanceState where
  extensions : DxvkInstanceExtensions
  enabledNames : List String
  adapters : List DxvkAdapter
  events : List LogEvent
deriving DecidableEq, Repr

/-- `DxvkInstance::DxvkInstance` (lines 12–51): provider instance-level
initialization in registration order (lines 32–33), then the library load
and validity check (lines 35–37), then `createInstance` (line 38), then
`queryAdapters` (line 40), then provider device-extension initialization
(lines 42–43), then the per-adapter, per-provider extension application
(lines 45–50).  Returns the outcome and the full step trace. -/
def constructInstance (numProviders : Nat) (libraryValid : Bool)
    (envVar : String → String) (options : DxvkOptions)
    (available : List String) (providerExts : List (List String))
    (createStatus : VkResult) (drv : VulkanDriver) :
    Except DxvkError DxvkInstanceState × List TraceEvent :=
  let t1 := (List.range numProviders).map TraceEvent.providerInitInstanceExts ++
    [TraceEvent.loadVulkanLibrary]
  if !libraryValid then
    (Except.error { message := "Failed to load vulkan-1 library." }, t1)
  else
    let t2 := t1 ++ [TraceEvent.createVulkanInstance]
    match createInstance envVar options available providerExts createStatus with
    | (Except.error e, _) => (Except.error e, t2)
    | (Except.ok ci, createEvents) =>
      let t3 := t2 ++ [TraceEvent.enumeratePhysicalDevices]
      match queryAdapters drv with
      | Except.error e => (Except.error e, t3)
      | Except.ok (adapters, queryEvents) =>
        let t4 := t3 ++ (List.range numProviders).map TraceEvent.providerInitDeviceExts
        let t5 := t4 ++ (List.range adapters.length).flatMap (fun i =>
          (List.range numProviders).map (fun j => TraceEvent.adapterEnableExts i j))
        (Except.ok
          { extensions := ci.extensions, enabledNames := ci.enabledNames,
            adapters := adapters, events := createEvents ++ queryEvents }, t5)

/-! ## Concrete instances used by the claims -/

/-- A device with a given type and device id (the other fields are not
read by the ranking pipeline). -/
def rankExampleDevice (t : VkPhysicalDeviceType) (n : Nat) : VkPhysicalDevice :=
  { properties := { deviceType := t, vendorID := 0, deviceID := n },
    deviceLUIDValid := false, deviceLUID := [] }

/-- The spec's ranking example population, in enumeration order
`[integrated, discrete, virtual, discrete]`; each device's id is its
1-based enumeration position. -/
def rankExampleDevices : List VkPhysicalDevice :=
  [rankExampleDevice VkPhysicalDeviceType.integratedGpu 1,
   rankExampleDevice VkPhysicalDeviceType.discreteGpu 2,
   rankExampleDevice VkPhysicalDeviceType.virtualGpu 3,
   rankExampleDevice VkPhysicalDeviceType.discreteGpu 4]

/-- A process environment in which `DXVK_PERF_EVENTS` has the given value
and every other variable is unset (the empty string). -/
def constEnvVar (v : String) : String → String :=
  fun name => if name = "DXVK_PERF_EVENTS" then v else ""

/-- A driver that reports exactly the two mandatory surface extensions
(and in particular does not report `VK_EXT_debug_utils`). -/
def surfaceOnlyAvailable : List String :=
  ["VK_KHR_get_surface_capabilities2", "VK_KHR_surface"]

/-- A driver connection whose sizing call reports one device but whose
fill call answers `VK_INCOMPLETE` — the count/buffer-mismatch condition
(the population grew between the two calls). -/
def c5MismatchDriver : VulkanDriver :=
  { countCall := (VkResult.success, 1),
    fillCall := fun _ => (VkResult.incomplete, []) }

/-- A driver connection that enumerates successfully and reports zero
devices. -/
def emptyOkDriver : VulkanDriver :=
  { countCall := (VkResult.success, 0),
    fillCall := fun _ => (VkResult.success, []) }

/-! ## Helper lemmas -/

/-- The comparator loop computes exactly the strict comparison of the
spec-level priority ranks. -/
theorem typeLess_eq_rank (t u : VkPhysicalDeviceType) :
    typeLess t u = decide (priorityRank t < priorityRank u) := by
  cases t <;> cases u <;> rfl

/-- Every priority rank is at most the table length. -/
theorem priorityRank_le (t : VkPhysicalDeviceType) : priorityRank t ≤ 3 := by
  cases t <;> simp [priorityRank]

/-- The adapter comparator is rank comparison. -/
theorem adapterLess_eq_rank :
    adapterLess = fun a b =>
      decide (priorityRank a.deviceProperties.deviceType
        < priorityRank b.deviceProperties.deviceType) := by
  funext a b
  exact typeLess_eq_rank _ _

/-- Inserting an element past a block it is not less than. -/
theorem stableInsert_append (lt : α → α → Bool) (x : α) (A B : List α)
    (h : ∀ y ∈ A, lt x y = false) :
    stableInsert lt x (A ++ B) = A ++ stableInsert lt x B := by
  induction A with
  | nil => rfl
  | cons y ys ih =>
    have hy : lt x y = false := h y (by simp)
    have ih' := ih (fun z hz => h z (by simp [hz]))
    simp [stableInsert, hy, ih']

/-- Inserting an element in front of a block it is less than. -/
theorem stableInsert_front (lt : α → α → Bool) (x : α) (B : List α)
    (h : ∀ y ∈ B, lt x y = true) :
    stableInsert lt x B = x :: B := by
  cases B with
  | nil => rfl
  | cons y ys => simp [stableInsert, h y (by simp)]

/-- Inserting an element past a whole block it is not less than. -/
theorem stableInsert_all_pass (lt : α → α → Bool) (x : α) (A : List α)
    (h : ∀ y ∈ A, lt x y = false) :
    stableInsert lt x A = A ++ [x] := by
  induction A with
  | nil => rfl
  | cons y ys ih =>
    have hy : lt x y = false := h y (by simp)
    have ih' := ih (fun z hz => h z (by simp [hz]))
    simp [stableInsert, hy, ih']

/-- Membership is preserved by stable insertion. -/
theorem mem_stableInsert (lt : α → α → Bool) (x y : α) (l : List α) :
    y ∈ stableInsert lt x l ↔ y = x ∨ y ∈ l := by
  induction l with
  | nil => simp [stableInsert]
  | cons z zs ih =>
    cases h : lt x z
    · simp only [stableInsert, h, Bool.false_eq_true, if_false, List.mem_cons, ih]
      tauto
    · simp [stableInsert, h, List.mem_cons]

/-- Membership is preserved by the stable sort. -/
theorem mem_stableSort (lt : α → α → Bool) (l : List α) (y : α) :
    y ∈ stableSort lt l ↔ y ∈ l := by
  have aux : ∀ (l acc : List α),
      (y ∈ l.foldl (fun acc x => stableInsert lt x acc) acc ↔ y ∈ acc ∨ y ∈ l) := by
    intro l
    induction l with
    | nil => simp
    | cons x xs ih =>
      intro acc
      simp only [List.foldl_cons, ih, mem_stableInsert, List.mem_cons]
      tauto
  simpa using aux l []

/-- Folding stable insertion over the input, starting from an accumulator
already laid out as the four priority buckets, appends each element to the
end of its bucket. -/
theorem foldl_stableInsert_buckets (key : α → Nat) (hk : ∀ x, key x ≤ 3) :
    ∀ (l A0 A1 A2 A3 : List α),
      (∀ y ∈ A0, key y = 0) → (∀ y ∈ A1, key y = 1) →
      (∀ y ∈ A2, key y = 2) → (∀ y ∈ A3, key y = 3) →
      l.foldl (fun acc x => stableInsert (fun a b => decide (key a < key b)) x acc)
          (A0 ++ (A1 ++ (A2 ++ A3)))
        = (A0 ++ l.filter (fun x => key x == 0)) ++
          ((A1 ++ l.filter (fun x => key x == 1)) ++
           ((A2 ++ l.filter (fun x => key x == 2)) ++
            (A3 ++ l.filter (fun x => key x == 3)))) := by
  intro l
  induction l with
  | nil => simp
  | cons x xs ih =>
    intro A0 A1 A2 A3 h0 h1 h2 h3
    have hx := hk x
    have hcase : key x = 0 ∨ key x = 1 ∨ key x = 2 ∨ key x = 3 := by omega
    simp only [List.foldl_cons]
    rcases hcase with hkey | hkey | hkey | hkey
    · have hins :
          stableInsert (fun a b => decide (key a < key b)) x (A0 ++ (A1 ++ (A2 ++ A3)))
            = (A0 ++ [x]) ++ (A1 ++ (A2 ++ A3)) := by
        rw [stableInsert_append _ x A0 (A1 ++ (A2 ++ A3))
          (fun y hy => by simp [hkey, h0 y hy])]
        rw [stableInsert_front _ x (A1 ++ (A2 ++ A3))
          (fun y hy => by
            rcases List.mem_append.mp hy with hmem | hmem
            · simp [hkey, h1 y hmem]
            · rcases List.mem_append.mp hmem with hmem2 | hmem2
              · simp [hkey, h2 y hmem2]
              · simp [hkey, h3 y hmem2])]
        simp
      rw [hins, ih (A0 ++ [x]) A1 A2 A3
        (fun y hy => by
          rcases List.mem_append.mp hy with hmem | hmem
          · exact h0 y hmem
          · simp at hmem; simpa [hmem] using hkey)
        h1 h2 h3]
      simp [List.filter_cons, hkey]
    · have hins :
          stableInsert (fun a b => decide (key a < key b)) x (A0 ++ (A1 ++ (A2 ++ A3)))
            = A0 ++ ((A1 ++ [x]) ++ (A2 ++ A3)) := by
        rw [stableInsert_append _ x A0 (A1 ++ (A2 ++ A3))
          (fun y hy => by simp [hkey, h0 y hy])]
        rw [stableInsert_append _ x A1 (A2 ++ A3)
          (fun y hy => by simp [hkey, h1 y hy])]
        rw [stableInsert_front _ x (A2 ++ A3)
          (fun y hy => by
            rcases List.mem_append.mp hy with hmem | hmem
            · simp [hkey, h2 y hmem]
            · simp [hkey, h3 y hmem])]
        simp
      rw [hins, ih A0 (A1 ++ [x]) A2 A3 h0
        (fun y hy => by
          rcases List.mem_append.mp hy with hmem | hmem
          · exact h1 y hmem
          · simp at hmem; simpa [hmem] using hkey)
        h2 h3]
      simp [List.filter_cons, hkey]
    · have hins :
          stableInsert (fun a b => decide (key a < key b)) x (A0 ++ (A1 ++ (A2 ++ A3)))
            = A0 ++ (A1 ++ ((A2 ++ [x]) ++ A3)) := by
        rw [stableInsert_append _ x A0 (A1 ++ (A2 ++ A3))
          (fun y hy => by simp [hkey, h0 y hy])]
        rw [stableInsert_append _ x A1 (A2 ++ A3)
          (fun y hy => by simp [hkey, h1 y hy])]
        rw [stableInsert_append _ x A2 A3
          (fun y hy => by simp [hkey, h2 y hy])]
        rw [stableInsert_front _ x A3
          (fun y hy => by simp [hkey, h3 y hy])]
        simp
      rw [hins, ih A0 A1 (A2 ++ [x]) A3 h0 h1
        (fun y hy => by
          rcases List.mem_append.mp hy with hmem | hmem
          · exact h2 y hmem
          · simp at hmem; simpa [hmem] using hkey)
        h3]
      simp [List.filter_cons, hkey]
    · have hins :
          stableInsert (fun a b => decide (key a < key b)) x (A0 ++ (A1 ++ (A2 ++ A3)))
            = A0 ++ (A1 ++ (A2 ++ (A3 ++ [x]))) := by
        rw [stableInsert_append _ x A0 (A1 ++ (A2 ++ A3))
          (fun y hy => by simp [hkey, h0 y hy])]
        rw [stableInsert_append _ x A1 (A2 ++ A3)
          (fun y hy => by simp [hkey, h1 y hy])]
        rw [stableInsert_append _ x A2 A3
          (fun y hy => by simp [hkey, h2 y hy])]
        rw [stableInsert_all_pass _ x A3
          (fun y hy => by simp [hkey, h3 y hy])]
      rw [hins, ih A0 A1 A2 (A3 ++ [x]) h0 h1 h2
        (fun y hy => by
          rcases List.mem_append.mp hy with hmem | hmem
          · exact h3 y hmem
          · simp at hmem; simpa [hmem] using hkey)]
      simp [List.filter_cons, hkey]

/-- The stable sort by a rank key bounded by 3 is exactly the
concatenation of the four rank buckets, each in input order. -/
theorem stableSort_buckets (key : α → Nat) (hk : ∀ x, key x ≤ 3) (l : List α) :
    stableSort (fun a b => decide (key a < key b)) l
      = l.filter (fun x => key x == 0) ++ l.filter (fun x => key x == 1)
        ++ l.filter (fun x => key x == 2) ++ l.filter (fun x => key x == 3) := by
  have h := foldl_stableInsert_buckets key hk l [] [] [] []
    (by simp) (by simp) (by simp) (by simp)
  simp only [List.nil_append] at h
  simp [stableSort, h, List.append_assoc]

/-- The `SkipCpuDevices` flag equals: some device in the population is not
of CPU type. -/
theorem computeFilterFlags_skip (props : List VkPhysicalDeviceProperties) :
    (computeFilterFlags props).skipCpuDevices
      = props.any (fun p => p.deviceType != VkPhysicalDeviceType.cpu) := by
  have aux : ∀ (ps : List VkPhysicalDeviceProperties) (init : DxvkDeviceFilterFlags),
      (ps.foldl
        (fun flags p =>
          if p.deviceType != VkPhysicalDeviceType.cpu then { skipCpuDevices := true } else flags)
        init).skipCpuDevices
        = (init.skipCpuDevices || ps.any (fun p => p.deviceType != VkPhysicalDeviceType.cpu)) := by
    intro ps
    induction ps with
    | nil => simp
    | cons p rest ih =>
      intro init
      simp only [List.foldl_cons, List.any_cons]
      cases hb : (p.deviceType != VkPhysicalDeviceType.cpu)
      · simp only [hb, Bool.false_eq_true, if_false, ih, Bool.false_or]
      · simp only [hb, if_true, ih]
        simp
  exact aux props { skipCpuDevices := false }

/-- `find?` returns `some a` exactly when the list splits as a prefix of
non-matches, then `a` as the first match. -/
theorem find?_eq_some_split (p : α → Bool) (l : List α) (a : α) :
    l.find? p = some a
      ↔ p a = true ∧ ∃ as bs, l = as ++ a :: bs ∧ ∀ x ∈ as, p x = false := by
  induction l with
  | nil =>
    simp only [List.find?_nil]
    constructor
    · intro h; cases h
    · rintro ⟨-, as, bs, h, -⟩
      exact absurd h.symm (by simp)
  | cons x xs ih =>
    cases hx : p x with
    | true =>
      simp only [List.find?_cons, hx]
      constructor
      · intro h
        cases h
        exact ⟨hx, [], xs, rfl, by simp⟩
      · rintro ⟨hpa, as, bs, hsplit, hpre⟩
        cases as with
        | nil =>
          simp only [List.nil_append, List.cons.injEq] at hsplit
          simp [hsplit.1]
        | cons w ws =>
          simp only [List.cons_append, List.cons.injEq] at hsplit
          have : p x = false := hsplit.1 ▸ hpre w (by simp)
          simp [hx] at this
    | false =>
      simp only [List.find?_cons, hx]
      rw [ih]
      constructor
      · rintro ⟨hpa, as, bs, hsplit, hpre⟩
        refine ⟨hpa, x :: as, bs, by simp [hsplit], ?_⟩
        intro z hz
        rcases List.mem_cons.mp hz with hz | hz
        · simpa [hz] using hx
        · exact hpre z hz
      · rintro ⟨hpa, as, bs, hsplit, hpre⟩
        cases as with
        | nil =>
          simp only [List.nil_append, List.cons.injEq] at hsplit
          rw [hsplit.1] at hx
          simp [hpa] at hx
        | cons w ws =>
          simp only [List.cons_append, List.cons.injEq] at hsplit
          exact ⟨hpa, ws, bs, hsplit.2, fun z hz => hpre z (by simp [hz])⟩

/-- `any` over a projected list. -/
theorem any_map_props (devices : List VkPhysicalDevice) (p : VkPhysicalDeviceProperties → Bool) :
    (devices.map (·.properties)).any p = devices.any (fun d => p d.properties) := by
  induction devices with
  | nil => rfl
  | cons d ds ih => simp [ih]

/-- `find?` against a propositional reading of its predicate: the `none`
case means no element satisfies it, the `some` case means the list splits
at the first element that does. -/
theorem find?_first_iff (p : α → Bool) (P : α → Prop) (hP : ∀ x, p x = true ↔ P x)
    (l : List α) (a : α) :
    (l.find? p = none ↔ ∀ x ∈ l, ¬ P x)
    ∧ (l.find? p = some a ↔
        P a ∧ ∃ as bs, l = as ++ a :: bs ∧ ∀ x ∈ as, ¬ P x) := by
  constructor
  · rw [List.find?_eq_none]
    constructor
    · intro h x hx hPx
      exact h x hx ((hP x).mpr hPx)
    · intro h x hx
      simpa [hP x] using h x hx
  · rw [find?_eq_some_split]
    constructor
    · rintro ⟨hpa, as, bs, hsplit, hpre⟩
      exact ⟨(hP a).mp hpa, as, bs, hsplit,
        fun x hx hPx => absurd ((hP x).mpr hPx) (by simp [hpre x hx])⟩
    · rintro ⟨hPa, as, bs, hsplit, hpre⟩
      refine ⟨(hP a).mpr hPa, as, bs, hsplit, fun x hx => ?_⟩
      cases hpx : p x with
      | false => rfl
      | true => exact absurd ((hP x).mp hpx) (hpre x hx)

/-- Negotiating the instance request list: fails exactly when a mandatory
surface extension is unavailable, and otherwise enables each requested slot
according to availability. -/
theorem enableExtensions_insList (available : List String) (optIn : Bool) :
    enableExtensions available (insExtensionList optIn)
      = if available.contains "VK_KHR_get_surface_capabilities2"
            && available.contains "VK_KHR_surface" then
          some ([("VK_KHR_get_surface_capabilities2",
                  available.contains "VK_KHR_get_surface_capabilities2"),
                 ("VK_KHR_surface", available.contains "VK_KHR_surface")]
            ++ (if optIn then
                  [("VK_EXT_debug_utils", available.contains "VK_EXT_debug_utils")]
                else []))
        else none := by
  cases optIn <;>
    cases h1 : available.contains "VK_KHR_get_surface_capabilities2" <;>
      cases h2 : available.contains "VK_KHR_surface" <;>
        simp_all [enableExtensions, insExtensionList, khrGetSurfaceCapabilities2Ext,
          khrSurfaceExt, extDebugUtilsExt]

/-- The negotiation succeeds exactly when both mandatory surface
extensions are available, whatever the debug-utils opt-in state. -/
theorem enableExtensions_insList_isSome (available : List String) (optIn : Bool) :
    (enableExtensions available (insExtensionList optIn)).isSome
      = (available.contains "VK_KHR_get_surface_capabilities2"
          && available.contains "VK_KHR_surface") := by
  rw [enableExtensions_insList]
  cases hmand : (available.contains "VK_KHR_get_surface_capabilities2"
      && available.contains "VK_KHR_surface") <;> simp [hmand]

/-- `createInstance` logs the debug-utils performance warning exactly when
the opt-in is active, whatever the negotiation outcome. -/
theorem createInstance_events (envVar : String → String) (options : DxvkOptions)
    (available : List String) (providerExts : List (List String)) (createStatus : VkResult) :
    (createInstance envVar options available providerExts createStatus).2
      = if debugUtilsOptIn envVar options then [LogEvent.debugUtilsPerfWarning] else [] := by
  cases h : enableExtensions available (insExtensionList (debugUtilsOptIn envVar options)) with
  | none => simp [createInstance, h]
  | some slots =>
    simp only [createInstance, h]
    split <;> rfl

/-- A successful `createInstance` committed exactly the slots the
negotiation enabled: its debug-utils record field reads back the
negotiated debug-utils slot. -/
theorem createInstance_ok_shape (envVar : String → String) (options : DxvkOptions)
    (available : List String) (providerExts : List (List String)) (createStatus : VkResult)
    (res : InstanceCreationResult)
    (h : (createInstance envVar options available providerExts createStatus).1 = Except.ok res) :
    ∃ slots, enableExtensions available (insExtensionList (debugUtilsOptIn envVar options))
        = some slots
      ∧ res.extensions.extDebugUtils = slotEnabled slots extDebugUtilsExt.name := by
  cases hse : enableExtensions available (insExtensionList (debugUtilsOptIn envVar options)) with
  | none => simp [createInstance, hse] at h
  | some slots =>
    refine ⟨slots, rfl, ?_⟩
    cases hcs : (createStatus != VkResult.success) with
    | true => simp [createInstance, hse, hcs] at h
    | false =>
      simp only [createInstance, hse, hcs, Bool.false_eq_true, if_false] at h
      rw [Except.ok.injEq] at h
      rw [← h]

/-- In a successful `createInstance`, the committed record has debug utils
enabled exactly when the opt-in was active and the driver reported the
extension available. -/
theorem createInstance_ok_extDebugUtils (envVar : String → String) (options : DxvkOptions)
    (available : List String) (providerExts : List (List String)) (createStatus : VkResult)
    (res : InstanceCreationResult)
    (h : (createInstance envVar options available providerExts createStatus).1 = Except.ok res) :
    res.extensions.extDebugUtils
      = (debugUtilsOptIn envVar options && available.contains "VK_EXT_debug_utils") := by
  obtain ⟨slots, hse, hres⟩ :=
    createInstance_ok_shape envVar options available providerExts createStatus res h
  rw [enableExtensions_insList] at hse
  by_cases hmand : (available.contains "VK_KHR_get_surface_capabilities2"
      && available.contains "VK_KHR_surface") = true
  · rw [if_pos hmand] at hse
    rw [Option.some.injEq] at hse
    rw [hres, ← hse]
    cases hopt : debugUtilsOptIn envVar options <;>
      simp [slotEnabled, hopt, khrGetSurfaceCapabilities2Ext, khrSurfaceExt, extDebugUtilsExt]
  · rw [if_neg hmand] at hse
    exact Option.noConfusion hse

/-- Whatever happens later, the constructor trace starts with the provider
instance-extension initializations, in registration order, followed by the
library load. -/
theorem constructInstance_trace_prefix (numProviders : Nat) (libraryValid : Bool)
    (envVar : String → String) (options : DxvkOptions) (available : List String)
    (providerExts : List (List String)) (createStatus : VkResult) (drv : VulkanDriver) :
    ∃ s, (constructInstance numProviders libraryValid envVar options available providerExts
          createStatus drv).2
      = ((List.range numProviders).map TraceEvent.providerInitInstanceExts
          ++ [TraceEvent.loadVulkanLibrary]) ++ s := by
  cases hlib : libraryValid with
  | false =>
    refine ⟨[], ?_⟩
    simp [constructInstance]
  | true =>
    rcases hci : createInstance envVar options available providerExts createStatus with ⟨r, ev⟩
    cases r with
    | error e =>
      refine ⟨[TraceEvent.createVulkanInstance], ?_⟩
      simp [constructInstance, hci]
    | ok ci =>
      rcases hqa : queryAdapters drv with e | p
      · refine ⟨[TraceEvent.createVulkanInstance, TraceEvent.enumeratePhysicalDevices], ?_⟩
        simp [constructInstance, hci, hqa]
      · rcases p with ⟨adapters, warns⟩
        refine ⟨[TraceEvent.createVulkanInstance, TraceEvent.enumeratePhysicalDevices]
          ++ (List.range numProviders).map TraceEvent.providerInitDeviceExts
          ++ (List.range adapters.length).flatMap (fun i =>
              (List.range numProviders).map (fun j => TraceEvent.adapterEnableExts i j)), ?_⟩
        simp [constructInstance, hci, hqa]

/-! ## The claims -/

/-- C1: for every enumerated device population, the adapter list returned
by `queryAdapters` is the filtered list stably sorted by device-type
priority class — every discrete-GPU adapter first, then the integrated-GPU
adapters, then the virtual-GPU adapters, then every other device type —
with relative enumeration order preserved inside each class (each class is
the enumeration-ordered filter of the surviving list); and the spec's
example population `[integrated, discrete, virtual, discrete]` ranks to
the devices at original positions `[2, 4, 1, 3]`. -/
theorem c1_ranking_stable_by_priority_class :
    (∀ devices : List VkPhysicalDevice,
      (queryAdaptersFrom devices).1
        = (survivingAdapters devices).filter
            (fun a => priorityRank a.deviceProperties.deviceType == 0)
          ++ (survivingAdapters devices).filter
            (fun a => priorityRank a.deviceProperties.deviceType == 1)
          ++ (survivingAdapters devices).filter
            (fun a => priorityRank a.deviceProperties.deviceType == 2)
          ++ (survivingAdapters devices).filter
            (fun a => priorityRank a.deviceProperties.deviceType == 3))
    ∧ (queryAdaptersFrom rankExampleDevices).1.map
        (fun a => a.deviceProperties.deviceID) = [2, 4, 1, 3] := by
  constructor
  · intro devices
    have h := stableSort_buckets
      (fun a : DxvkAdapter => priorityRank a.deviceProperties.deviceType)
      (fun a => priorityRank_le _) (survivingAdapters devices)
    calc (queryAdaptersFrom devices).1
        = stableSort adapterLess (survivingAdapters devices) := rfl
      _ = _ := by rw [adapterLess_eq_rank]; exact h
  · rfl

/-- C2: the `SkipCpuDevices` flag is computed once over the whole
population and equals "some device is not of CPU type"; when it is set,
no CPU-type device reaches the final adapter list; when every device is of
CPU type, the filter excludes nothing. -/
theorem c2_cpu_filter_population (devices : List VkPhysicalDevice) :
    ((computeFilterFlags (devices.map (·.properties))).skipCpuDevices
        = devices.any (fun d => d.properties.deviceType != VkPhysicalDeviceType.cpu))
    ∧ (devices.any (fun d => d.properties.deviceType != VkPhysicalDeviceType.cpu) = true →
        ∀ a ∈ (queryAdaptersFrom devices).1,
          a.deviceProperties.deviceType ≠ VkPhysicalDeviceType.cpu)
    ∧ (devices.any (fun d => d.properties.deviceType != VkPhysicalDeviceType.cpu) = false →
        survivingAdapters devices = devices.map DxvkAdapter.mk) := by
  have hflag : (computeFilterFlags (devices.map (·.properties))).skipCpuDevices
      = devices.any (fun d => d.properties.deviceType != VkPhysicalDeviceType.cpu) := by
    rw [computeFilterFlags_skip, any_map_props]
  refine ⟨hflag, ?_, ?_⟩
  · intro hany a ha
    have ha' : a ∈ survivingAdapters devices :=
      (mem_stableSort adapterLess (survivingAdapters devices) a).mp ha
    simp only [survivingAdapters, List.mem_map, List.mem_filter] at ha'
    obtain ⟨d, ⟨hdmem, htest⟩, hmk⟩ := ha'
    have hskip : (computeFilterFlags (devices.map (·.properties))).skipCpuDevices = true := by
      rw [hflag]; exact hany
    rw [← hmk]
    simp only [testAdapter, hskip, Bool.true_and, Bool.not_eq_eq_eq_not, Bool.not_true] at htest
    simpa [DxvkAdapter.deviceProperties] using htest
  · intro hany
    have hskip : (computeFilterFlags (devices.map (·.properties))).skipCpuDevices = false := by
      rw [hflag]; exact hany
    simp only [survivingAdapters]
    rw [List.filter_eq_self.mpr]
    intro d _
    simp [testAdapter, hskip]

/-- C8: when enumeration and filtering yield zero usable adapters
(including a successful zero-device enumeration), `queryAdapters` returns
the empty adapter list without an error together with exactly one warning
event, and emits no warning when the list is non-empty. -/
theorem c8_empty_list_single_warning (devices : List VkPhysicalDevice) :
    ((queryAdaptersFrom devices).1 = [] →
      (queryAdaptersFrom devices).2 = [LogEvent.noAdaptersWarning])
    ∧ ((queryAdaptersFrom devices).1 ≠ [] → (queryAdaptersFrom devices).2 = [])
    ∧ queryAdaptersFrom [] = ([], [LogEvent.noAdaptersWarning])
    ∧ (∀ drv : VulkanDriver, drv.countCall.1 = VkResult.success →
        drv.fillCall drv.countCall.2 = (VkResult.success, devices) →
        queryAdapters drv = Except.ok (queryAdaptersFrom devices)) := by
  refine ⟨?_, ?_, rfl, ?_⟩
  · intro h
    simp only [queryAdaptersFrom] at h ⊢
    simp [h]
  · intro h
    simp only [queryAdaptersFrom] at h ⊢
    simp only [List.length_eq_zero]
    rw [if_neg h]
  · intro drv h1 h2
    simp [queryAdapters, h1, h2]

/-- C7: lookup by LUID returns the first adapter in ranked order whose
snapshot carries a valid identifier equal byte-for-byte to the query, and
`none` when no adapter has one; lookup by (vendor id, device id) returns
the first adapter matching both fields, and `none` otherwise.  An adapter
whose validity flag is false never matches the LUID lookup. -/
theorem c7_lookup_first_match (adapters : List DxvkAdapter) (luid : List Nat)
    (vendorId deviceId : Nat) (a : DxvkAdapter) :
    (findAdapterByLuid adapters luid = none ↔
      ∀ x ∈ adapters,
        ¬(x.device.deviceLUIDValid = true ∧ x.device.deviceLUID = luid))
    ∧ (findAdapterByLuid adapters luid = some a ↔
        (a.device.deviceLUIDValid = true ∧ a.device.deviceLUID = luid) ∧
        ∃ as bs, adapters = as ++ a :: bs ∧
          ∀ x ∈ as, ¬(x.device.deviceLUIDValid = true ∧ x.device.deviceLUID = luid))
    ∧ (findAdapterByDeviceId adapters vendorId deviceId = none ↔
        ∀ x ∈ adapters,
          ¬(x.deviceProperties.vendorID = vendorId ∧ x.deviceProperties.deviceID = deviceId))
    ∧ (findAdapterByDeviceId adapters vendorId deviceId = some a ↔
        (a.deviceProperties.vendorID = vendorId ∧ a.deviceProperties.deviceID = deviceId) ∧
        ∃ as bs, adapters = as ++ a :: bs ∧
          ∀ x ∈ as,
            ¬(x.deviceProperties.vendorID = vendorId ∧ x.deviceProperties.deviceID = deviceId)) := by
  have hluid := find?_first_iff
    (fun x : DxvkAdapter => x.device.deviceLUIDValid && x.device.deviceLUID == luid)
    (fun x : DxvkAdapter => x.device.deviceLUIDValid = true ∧ x.device.deviceLUID = luid)
    (fun x => by simp) adapters a
  have hdev := find?_first_iff
    (fun x : DxvkAdapter =>
      x.deviceProperties.vendorID == vendorId && x.deviceProperties.deviceID == deviceId)
    (fun x : DxvkAdapter =>
      x.deviceProperties.vendorID = vendorId ∧ x.deviceProperties.deviceID = deviceId)
    (fun x => by simp) adapters a
  exact ⟨hluid.1, hluid.2, hdev.1, hdev.2⟩

/-- C5 counterexample: a count/buffer mismatch between the two enumeration
calls (the fill call answers `VK_INCOMPLETE`) is not tolerated: the code
treats it exactly like an error status and fails, instead of retrying the
sizing call as the claim states. -/
theorem c5_counterexample_mismatch_is_fatal :
    queryAdapters c5MismatchDriver
        = Except.error { message := "DxvkInstance::enumAdapters: Failed to enumerate adapters" }
      ∧ (queryAdapters c5MismatchDriver).isOk = false := by
  exact ⟨rfl, rfl⟩

/-- C5 (amended): enumeration uses the two-call pattern, and any status
other than `VK_SUCCESS` from either call — including the `VK_INCOMPLETE`
produced by a count/buffer mismatch — is fatal; there is no retry, and the
enumeration succeeds exactly when both calls return `VK_SUCCESS`. -/
theorem c5_two_call_no_retry (drv : VulkanDriver) :
    ((queryAdapters drv).isOk = true ↔
      (drv.countCall.1 = VkResult.success ∧ (drv.fillCall drv.countCall.2).1 = VkResult.success))
    ∧ (drv.countCall.1 = VkResult.success →
        (drv.fillCall drv.countCall.2).1 = VkResult.incomplete →
        queryAdapters drv
          = Except.error { message := "DxvkInstance::enumAdapters: Failed to enumerate adapters" })
    ∧ (drv.countCall.1 = VkResult.success →
        (drv.fillCall drv.countCall.2).1 = VkResult.success →
        queryAdapters drv = Except.ok (queryAdaptersFrom (drv.fillCall drv.countCall.2).2)) := by
  refine ⟨?_, ?_, ?_⟩
  · cases h1 : drv.countCall.1 <;>
      [cases h2 : (drv.fillCall drv.countCall.2).1 <;>
         simp [queryAdapters, h1, h2, Except.isOk, Except.toBool];
       simp [queryAdapters, h1, Except.isOk, Except.toBool];
       simp [queryAdapters, h1, Except.isOk, Except.toBool]]
  · intro h1 h2
    simp [queryAdapters, h1, h2]
  · intro h1 h2
    simp [queryAdapters, h1, h2]

/-- C3: the debug/instrumentation extension is enabled in the committed
instance-extension record exactly when the opt-in is active and the driver
reports it available, and the negotiation's success never depends on it —
negotiation succeeds exactly when both mandatory surface extensions are
available. -/
theorem c3_debug_utils_enable_iff (envVar : String → String) (options : DxvkOptions)
    (available : List String) (providerExts : List (List String)) (createStatus : VkResult) :
    (∀ res, (createInstance envVar options available providerExts createStatus).1
        = Except.ok res →
      res.extensions.extDebugUtils
        = (debugUtilsOptIn envVar options && available.contains "VK_EXT_debug_utils"))
    ∧ ((enableExtensions available (insExtensionList (debugUtilsOptIn envVar options))).isSome
        = (available.contains "VK_KHR_get_surface_capabilities2"
            && available.contains "VK_KHR_surface")) := by
  exact ⟨fun res h =>
    createInstance_ok_extDebugUtils envVar options available providerExts createStatus res h,
    enableExtensions_insList_isSome available (debugUtilsOptIn envVar options)⟩

/-- C9 counterexample: with the opt-in active through `DXVK_PERF_EVENTS=1`
but `VK_EXT_debug_utils` absent from the driver's available set, the
performance warning is still emitted (the code logs it when building the
request list, before availability is known), the extension is silently
dropped, and creation succeeds. -/
theorem c9_counterexample_warning_despite_unavailable :
    (createInstance (constEnvVar "1") { enableDebugUtils := false } surfaceOnlyAvailable []
        VkResult.success).2 = [LogEvent.debugUtilsPerfWarning]
    ∧ surfaceOnlyAvailable.contains "VK_EXT_debug_utils" = false
    ∧ (createInstance (constEnvVar "1") { enableDebugUtils := false } surfaceOnlyAvailable []
        VkResult.success).1
      = Except.ok
          { extensions :=
              { khrGetSurfaceCapabilities2 := true, khrSurface := true, extDebugUtils := false },
            enabledNames := ["VK_KHR_get_surface_capabilities2", "VK_KHR_surface"] } := by
  exact ⟨rfl, rfl, rfl⟩

/-- C9 (amended): the performance warning is emitted exactly when the
opt-in is active, whether or not the driver reports the extension
available; when it is unavailable it is silently dropped from the
committed record while creation proceeds. -/
theorem c9_warning_iff_opt_in (envVar : String → String) (options : DxvkOptions)
    (available : List String) (providerExts : List (List String)) (createStatus : VkResult) :
    ((createInstance envVar options available providerExts createStatus).2
        = if debugUtilsOptIn envVar options then [LogEvent.debugUtilsPerfWarning] else [])
    ∧ (∀ res, (createInstance envVar options available providerExts createStatus).1
        = Except.ok res →
      res.extensions.extDebugUtils
        = (debugUtilsOptIn envVar options && available.contains "VK_EXT_debug_utils")) := by
  exact ⟨createInstance_events envVar options available providerExts createStatus,
    fun res h =>
      createInstance_ok_extDebugUtils envVar options available providerExts createStatus res h⟩

/-- C10: the environment override is active exactly when
`DXVK_PERF_EVENTS` compares equal to the string `"1"`; other values,
including `"true"`, `"on"` and unset (the empty string), leave the opt-in
to the resolved configuration flag alone. -/
theorem c10_env_override_exact_string :
    (∀ (envVar : String → String) (options : DxvkOptions),
      (debugUtilsOptIn envVar options = true ↔
        (envVar "DXVK_PERF_EVENTS" = "1" ∨ options.enableDebugUtils = true)))
    ∧ debugUtilsOptIn (constEnvVar "1") { enableDebugUtils := false } = true
    ∧ debugUtilsOptIn (constEnvVar "true") { enableDebugUtils := false } = false
    ∧ debugUtilsOptIn (constEnvVar "on") { enableDebugUtils := false } = false
    ∧ debugUtilsOptIn (constEnvVar "") { enableDebugUtils := false } = false
    ∧ (∀ v, debugUtilsOptIn (constEnvVar v) { enableDebugUtils := true } = true) := by
  refine ⟨?_, by decide, by decide, by decide, by decide, ?_⟩
  · intro envVar options
    simp [debugUtilsOptIn]
  · intro v
    simp [debugUtilsOptIn, constEnvVar]

/-- C4 counterexample: in a concrete successful construction with one
registered provider, the provider's instance-level initialization is the
first trace event and the library load only the second — the library is
not loaded strictly before the providers are asked, contradicting the
claimed order. -/
theorem c4_counterexample_provider_init_first :
    (constructInstance 1 true (constEnvVar "") { enableDebugUtils := false }
        surfaceOnlyAvailable [[]] VkResult.success emptyOkDriver).2
      = [TraceEvent.providerInitInstanceExts 0, TraceEvent.loadVulkanLibrary,
         TraceEvent.createVulkanInstance, TraceEvent.enumeratePhysicalDevices,
         TraceEvent.providerInitDeviceExts 0]
    ∧ ¬((constructInstance 1 true (constEnvVar "") { enableDebugUtils := false }
          surfaceOnlyAvailable [[]] VkResult.success emptyOkDriver).2.indexOf
            TraceEvent.loadVulkanLibrary
        < (constructInstance 1 true (constEnvVar "") { enableDebugUtils := false }
          surfaceOnlyAvailable [[]] VkResult.success emptyOkDriver).2.indexOf
            (TraceEvent.providerInitInstanceExts 0)) := by
  exact ⟨by decide, by decide⟩

/-- C4 (amended): during construction, every registered provider's
instance-level initialization runs, in registration order, strictly before
the driver's entry-point library is loaded: the trace always begins with
the provider initializations followed immediately by the library load. -/
theorem c4_provider_init_precedes_library_load (numProviders : Nat) (libraryValid : Bool)
    (envVar : String → String) (options : DxvkOptions) (available : List String)
    (providerExts : List (List String)) (createStatus : VkResult) (drv : VulkanDriver) :
    ((constructInstance numProviders libraryValid envVar options available providerExts
        createStatus drv).2).take (numProviders + 1)
      = (List.range numProviders).map TraceEvent.providerInitInstanceExts
          ++ [TraceEvent.loadVulkanLibrary] := by
  obtain ⟨suffix, hs⟩ := constructInstance_trace_prefix numProviders libraryValid envVar
    options available providerExts createStatus drv
  rw [hs]
  have hlen : ((List.range numProviders).map TraceEvent.providerInitInstanceExts
      ++ [TraceEvent.loadVulkanLibrary]).length = numProviders + 1 := by simp
  exact List.take_left' hlen

/-- C6: when a mandatory surface extension is unavailable, the negotiation
fails as a whole, `createInstance` aborts with the negotiation error — so
no extension record is committed — and construction never produces a
usable instance. -/
theorem c6_mandatory_negotiation_atomic (numProviders : Nat) (libraryValid : Bool)
    (envVar : String → String) (options : DxvkOptions) (available : List String)
    (providerExts : List (List String)) (createStatus : VkResult) (drv : VulkanDriver)
    (h : available.contains "VK_KHR_get_surface_capabilities2" = false
        ∨ available.contains "VK_KHR_surface" = false) :
    enableExtensions available (insExtensionList (debugUtilsOptIn envVar options)) = none
    ∧ (createInstance envVar options available providerExts createStatus).1
        = Except.error { message := "DxvkInstance: Failed to create instance" }
    ∧ ∀ st, (constructInstance numProviders libraryValid envVar options available
        providerExts createStatus drv).1 ≠ Except.ok st := by
  have hmand : (available.contains "VK_KHR_get_surface_capabilities2"
      && available.contains "VK_KHR_surface") = false := by
    rcases h with h | h
    · rw [h, Bool.false_and]
    · rw [h, Bool.and_false]
  have hnone : enableExtensions available (insExtensionList (debugUtilsOptIn envVar options))
      = none := by
    rw [enableExtensions_insList, hmand]
    simp
  have hci : (createInstance envVar options available providerExts createStatus).1
      = Except.error { message := "DxvkInstance: Failed to create instance" } := by
    simp [createInstance, hnone]
  refine ⟨hnone, hci, ?_⟩
  intro st hok
  cases hlib : libraryValid with
  | false => simp [constructInstance, hlib] at hok
  | true =>
    rcases hpair : createInstance envVar options available providerExts createStatus with ⟨r, ev⟩
    have hr : r = Except.error { message := "DxvkInstance: Failed to create instance" } := by
      rw [hpair] at hci
      exact hci
    subst hr
    simp [constructInstance, hlib, hpair] at hok

/-- C6 witness: with no extension reported available, `createInstance`
fails with the negotiation error. -/
theorem c6_witness_no_extension_available :
    (createInstance (fun _ => "") { enableDebugUtils := false } [] [] VkResult.success).1
      = Except.error { message := "DxvkInstance: Failed to create instance" } :=
  (c6_mandatory_negotiation_atomic 0 true (fun _ => "") { enableDebugUtils := false } [] []
    VkResult.success emptyOkDriver (Or.inl rfl)).2.1

end Dxvk

